import Mathlib

/-!
Shallow embedding of the Fama-French industry classifiers
(industries_ff5.py, industries_ff12.py, industries_ff38.py).

A pandas cell is modelled by `Cell` (NaN/None, integer, or string);
a DataFrame by an association list of named columns.  Python's `int()`
coercion of a decimal string is modelled by `parseInt`, a structurally
recursive decimal parser; a failed coercion is a raised `ValueError`,
modelled by `Except.error ()`.
-/

/-- A pandas cell: missing (NaN/None), an integer, or a string. -/
inductive Cell where
  | null : Cell
  | int (n : Int) : Cell
  | str (s : String) : Cell
deriving DecidableEq, Repr

-- Decidable equality of classifier and annotator results, used to evaluate
-- the model on concrete inputs.
deriving instance DecidableEq for Except

/-- `pd.isnull`: true only on the missing sentinel. -/
def Cell.isnull : Cell → Bool
  | .null => true
  | _ => false

/-- Accumulating decimal-digit parser over a character list; `none` as soon
as a non-digit appears. -/
def parseNatDigits (acc : Nat) : List Char → Option Nat
  | [] => some acc
  | c :: cs => if c.isDigit then parseNatDigits (10 * acc + (c.toNat - 48)) cs
               else none

/-- Python `int(str)` on a plain decimal string: an optional sign followed by
at least one digit parses to an integer; anything else raises. -/
def parseInt (s : String) : Option Int :=
  match s.data with
  | [] => none
  | '-' :: cs => if cs = [] then none
                 else (parseNatDigits 0 cs).map (fun n => -(n : Int))
  | '+' :: cs => if cs = [] then none
                 else (parseNatDigits 0 cs).map (fun n => (n : Int))
  | cs => (parseNatDigits 0 cs).map (fun n => (n : Int))

/-- Python `int(x)` applied to a cell: an integer passes through, a decimal
string is parsed, anything else raises (`ValueError`), modelled as
`Except.error ()`. -/
def Cell.toIntE : Cell → Except Unit Int
  | .int n => .ok n
  | .str s => match parseInt s with
              | some n => .ok n
              | none => .error ()
  | .null => .error ()

/-- FF12 industry names, from `FF12_NAMES` in industries_ff12.py. -/
def FF12_NAMES : List (Int × String) :=
  [(1, "NoDur"), (2, "Durbl"), (3, "Manuf"), (4, "Enrgy"), (5, "Chems"),
   (6, "BusEq"), (7, "Telcm"), (8, "Utils"), (9, "Shops"), (10, "Hlth"),
   (11, "Money"), (12, "Other")]

/-- FF5 industry names, from `FF5_NAMES` in industries_ff5.py. -/
def FF5_NAMES : List (Int × String) :=
  [(1, "Cnsmr"), (2, "Manuf"), (3, "HiTec"), (4, "Hlth"), (5, "Other")]

/-- FF38 industry names, from `FF38_NAMES` in industries_ff38.py. -/
def FF38_NAMES : List (Int × String) :=
  [(1, "Agric"), (2, "Mines"), (3, "Oil"), (4, "Stone"), (5, "Cnstr"),
   (6, "Food"), (7, "Smoke"), (8, "Txtls"), (9, "Apprl"), (10, "Wood"),
   (11, "Chair"), (12, "Paper"), (13, "Print"), (14, "Chems"), (15, "Ptrlm"),
   (16, "Rubbr"), (17, "Lethr"), (18, "Glass"), (19, "Metal"), (20, "MtlPr"),
   (21, "Machn"), (22, "Elctr"), (23, "Cars"), (24, "Instr"), (25, "Manuf"),
   (26, "Trans"), (27, "Phone"), (28, "TV"), (29, "Utils"), (30, "Garbg"),
   (31, "Steam"), (32, "Water"), (33, "Whlsl"), (34, "Rtail"), (35, "Money"),
   (36, "Srvc"), (37, "Govt"), (38, "Other")]

/-! ## FF12 rule predicates (industries_ff12.py, get_ff12_code) -/

/-- Rule 1 NoDur of the 12-group scheme. -/
def ff12_rule1 (sic : Int) : Bool :=
  decide ((100 ≤ sic ∧ sic ≤ 999) ∨ (2000 ≤ sic ∧ sic ≤ 2399) ∨
    (2700 ≤ sic ∧ sic ≤ 2749) ∨ (2770 ≤ sic ∧ sic ≤ 2799) ∨
    (3100 ≤ sic ∧ sic ≤ 3199) ∨ (3940 ≤ sic ∧ sic ≤ 3989))

/-- Rule 2 Durbl of the 12-group scheme. -/
def ff12_rule2 (sic : Int) : Bool :=
  decide ((2500 ≤ sic ∧ sic ≤ 2519) ∨ (2590 ≤ sic ∧ sic ≤ 2599) ∨
    (3630 ≤ sic ∧ sic ≤ 3659) ∨ (3710 ≤ sic ∧ sic ≤ 3711) ∨
    (3714 = sic) ∨ (3716 = sic) ∨ (3750 ≤ sic ∧ sic ≤ 3751) ∨
    (3792 = sic) ∨ (3900 ≤ sic ∧ sic ≤ 3939) ∨ (3990 ≤ sic ∧ sic ≤ 3999))

/-- Rule 3 Manuf of the 12-group scheme. -/
def ff12_rule3 (sic : Int) : Bool :=
  decide ((2520 ≤ sic ∧ sic ≤ 2589) ∨ (2600 ≤ sic ∧ sic ≤ 2699) ∨
    (2750 ≤ sic ∧ sic ≤ 2769) ∨ (3000 ≤ sic ∧ sic ≤ 3099) ∨
    (3200 ≤ sic ∧ sic ≤ 3569) ∨ (3580 ≤ sic ∧ sic ≤ 3629) ∨
    (3700 ≤ sic ∧ sic ≤ 3709) ∨ (3712 ≤ sic ∧ sic ≤ 3713) ∨
    (3715 = sic) ∨ (3717 ≤ sic ∧ sic ≤ 3749) ∨ (3752 ≤ sic ∧ sic ≤ 3791) ∨
    (3793 ≤ sic ∧ sic ≤ 3799) ∨ (3830 ≤ sic ∧ sic ≤ 3839) ∨
    (3860 ≤ sic ∧ sic ≤ 3899))

/-- Rule 4 Enrgy of the 12-group scheme. -/
def ff12_rule4 (sic : Int) : Bool :=
  decide ((1200 ≤ sic ∧ sic ≤ 1399) ∨ (2900 ≤ sic ∧ sic ≤ 2999))

/-- Rule 5 Chems of the 12-group scheme. -/
def ff12_rule5 (sic : Int) : Bool :=
  decide ((2800 ≤ sic ∧ sic ≤ 2829) ∨ (2840 ≤ sic ∧ sic ≤ 2899))

/-- Rule 6 BusEq of the 12-group scheme. -/
def ff12_rule6 (sic : Int) : Bool :=
  decide ((3570 ≤ sic ∧ sic ≤ 3579) ∨ (3660 ≤ sic ∧ sic ≤ 3692) ∨
    (3694 ≤ sic ∧ sic ≤ 3699) ∨ (3810 ≤ sic ∧ sic ≤ 3829) ∨
    (7370 ≤ sic ∧ sic ≤ 7379))

/-- Rule 7 Telcm of the 12-group scheme. -/
def ff12_rule7 (sic : Int) : Bool :=
  decide (4800 ≤ sic ∧ sic ≤ 4899)

/-- Rule 8 Utils of the 12-group scheme. -/
def ff12_rule8 (sic : Int) : Bool :=
  decide (4900 ≤ sic ∧ sic ≤ 4949)

/-- Rule 9 Shops of the 12-group scheme. -/
def ff12_rule9 (sic : Int) : Bool :=
  decide ((5000 ≤ sic ∧ sic ≤ 5999) ∨ (7200 ≤ sic ∧ sic ≤ 7299) ∨
    (7600 ≤ sic ∧ sic ≤ 7699))

/-- Rule 10 Hlth of the 12-group scheme. -/
def ff12_rule10 (sic : Int) : Bool :=
  decide ((2830 ≤ sic ∧ sic ≤ 2839) ∨ (3693 = sic) ∨
    (3840 ≤ sic ∧ sic ≤ 3859) ∨ (8000 ≤ sic ∧ sic ≤ 8099))

/-- Rule 11 Money of the 12-group scheme. -/
def ff12_rule11 (sic : Int) : Bool :=
  decide (6000 ≤ sic ∧ sic ≤ 6999)

/-- The integer-level 12-group classifier: the ordered if-chain of
`get_ff12_code` after the null check and `int()` coercion; the final
return 12 is the catch-all. -/
def ff12_code (sic : Int) : Int :=
  if ff12_rule1 sic then 1
  else if ff12_rule2 sic then 2
  else if ff12_rule3 sic then 3
  else if ff12_rule4 sic then 4
  else if ff12_rule5 sic then 5
  else if ff12_rule6 sic then 6
  else if ff12_rule7 sic then 7
  else if ff12_rule8 sic then 8
  else if ff12_rule9 sic then 9
  else if ff12_rule10 sic then 10
  else if ff12_rule11 sic then 11
  else 12

/-- `get_ff12_code` applied to one cell: NaN/None propagates as NaN,
otherwise `int()` coercion (raising on failure) then the rule chain. -/
def get_ff12_code (sic : Cell) : Except Unit Cell :=
  if sic.isnull then .ok .null
  else sic.toIntE.map (fun v => .int (ff12_code v))

/-! ## FF5 rule predicates (industries_ff5.py, get_ff5_code) -/

/-- Rule 1 Cnsmr of the 5-group scheme. -/
def ff5_rule1 (sic : Int) : Bool :=
  decide ((100 ≤ sic ∧ sic ≤ 999) ∨ (2000 ≤ sic ∧ sic ≤ 2399) ∨
    (2700 ≤ sic ∧ sic ≤ 2749) ∨ (2770 ≤ sic ∧ sic ≤ 2799) ∨
    (3100 ≤ sic ∧ sic ≤ 3199) ∨ (3940 ≤ sic ∧ sic ≤ 3989) ∨
    (2500 ≤ sic ∧ sic ≤ 2519) ∨ (2590 ≤ sic ∧ sic ≤ 2599) ∨
    (3630 ≤ sic ∧ sic ≤ 3659) ∨ (3710 ≤ sic ∧ sic ≤ 3711) ∨
    (3714 = sic) ∨ (3716 = sic) ∨ (3750 ≤ sic ∧ sic ≤ 3751) ∨
    (3792 = sic) ∨ (3900 ≤ sic ∧ sic ≤ 3939) ∨ (3990 ≤ sic ∧ sic ≤ 3999) ∨
    (5000 ≤ sic ∧ sic ≤ 5999) ∨ (7200 ≤ sic ∧ sic ≤ 7299) ∨
    (7600 ≤ sic ∧ sic ≤ 7699))

/-- Rule 2 Manuf of the 5-group scheme. -/
def ff5_rule2 (sic : Int) : Bool :=
  decide ((2520 ≤ sic ∧ sic ≤ 2589) ∨ (2600 ≤ sic ∧ sic ≤ 2699) ∨
    (2750 ≤ sic ∧ sic ≤ 2769) ∨ (2800 ≤ sic ∧ sic ≤ 2829) ∨
    (2840 ≤ sic ∧ sic ≤ 2899) ∨ (3000 ≤ sic ∧ sic ≤ 3099) ∨
    (3200 ≤ sic ∧ sic ≤ 3569) ∨ (3580 ≤ sic ∧ sic ≤ 3629) ∨
    (3700 ≤ sic ∧ sic ≤ 3709) ∨ (3712 ≤ sic ∧ sic ≤ 3713) ∨
    (3715 = sic) ∨ (3717 ≤ sic ∧ sic ≤ 3749) ∨ (3752 ≤ sic ∧ sic ≤ 3791) ∨
    (3793 ≤ sic ∧ sic ≤ 3799) ∨ (3830 ≤ sic ∧ sic ≤ 3839) ∨
    (3860 ≤ sic ∧ sic ≤ 3899) ∨ (1200 ≤ sic ∧ sic ≤ 1399) ∨
    (2900 ≤ sic ∧ sic ≤ 2999) ∨ (4900 ≤ sic ∧ sic ≤ 4949))

/-- Rule 3 HiTec of the 5-group scheme. -/
def ff5_rule3 (sic : Int) : Bool :=
  decide ((3570 ≤ sic ∧ sic ≤ 3579) ∨ (3622 = sic) ∨
    (3660 ≤ sic ∧ sic ≤ 3692) ∨ (3694 ≤ sic ∧ sic ≤ 3699) ∨
    (3810 ≤ sic ∧ sic ≤ 3839) ∨ (7370 ≤ sic ∧ sic ≤ 7372) ∨
    (7373 = sic) ∨ (7374 = sic) ∨ (7375 = sic) ∨ (7376 = sic) ∨
    (7377 = sic) ∨ (7378 = sic) ∨ (7379 = sic) ∨ (7391 = sic) ∨
    (8730 ≤ sic ∧ sic ≤ 8734) ∨ (4800 ≤ sic ∧ sic ≤ 4899))

/-- Rule 4 Hlth of the 5-group scheme. -/
def ff5_rule4 (sic : Int) : Bool :=
  decide ((2830 ≤ sic ∧ sic ≤ 2839) ∨ (3693 = sic) ∨
    (3840 ≤ sic ∧ sic ≤ 3859) ∨ (8000 ≤ sic ∧ sic ≤ 8099))

/-- The integer-level 5-group classifier: the ordered if-chain of
`get_ff5_code` after the null check and `int()` coercion; the final
return 5 is the catch-all. -/
def ff5_code (sic : Int) : Int :=
  if ff5_rule1 sic then 1
  else if ff5_rule2 sic then 2
  else if ff5_rule3 sic then 3
  else if ff5_rule4 sic then 4
  else 5

/-- `get_ff5_code` applied to one cell. -/
def get_ff5_code (sic : Cell) : Except Unit Cell :=
  if sic.isnull then .ok .null
  else sic.toIntE.map (fun v => .int (ff5_code v))

/-! ## FF38 rule predicates (industries_ff38.py, get_ff38_code) -/
/-- Rule 1 Agric of the 38-group scheme. -/
def ff38_rule1 (sic : Int) : Bool :=
  decide (100 ≤ sic ∧ sic ≤ 999)

/-- Rule 2 Mines of the 38-group scheme. -/
def ff38_rule2 (sic : Int) : Bool :=
  decide (1000 ≤ sic ∧ sic ≤ 1299)

/-- Rule 3 Oil of the 38-group scheme. -/
def ff38_rule3 (sic : Int) : Bool :=
  decide (1300 ≤ sic ∧ sic ≤ 1399)

/-- Rule 4 Stone of the 38-group scheme. -/
def ff38_rule4 (sic : Int) : Bool :=
  decide (1400 ≤ sic ∧ sic ≤ 1499)

/-- Rule 5 Cnstr of the 38-group scheme. -/
def ff38_rule5 (sic : Int) : Bool :=
  decide (1500 ≤ sic ∧ sic ≤ 1799)

/-- Rule 6 Food of the 38-group scheme. -/
def ff38_rule6 (sic : Int) : Bool :=
  decide (2000 ≤ sic ∧ sic ≤ 2099)

/-- Rule 7 Smoke of the 38-group scheme. -/
def ff38_rule7 (sic : Int) : Bool :=
  decide (2100 ≤ sic ∧ sic ≤ 2199)

/-- Rule 8 Txtls of the 38-group scheme. -/
def ff38_rule8 (sic : Int) : Bool :=
  decide (2200 ≤ sic ∧ sic ≤ 2299)

/-- Rule 9 Apprl of the 38-group scheme. -/
def ff38_rule9 (sic : Int) : Bool :=
  decide (2300 ≤ sic ∧ sic ≤ 2399)

/-- Rule 10 Wood of the 38-group scheme. -/
def ff38_rule10 (sic : Int) : Bool :=
  decide (2400 ≤ sic ∧ sic ≤ 2499)

/-- Rule 11 Chair of the 38-group scheme. -/
def ff38_rule11 (sic : Int) : Bool :=
  decide (2500 ≤ sic ∧ sic ≤ 2599)

/-- Rule 12 Paper of the 38-group scheme. -/
def ff38_rule12 (sic : Int) : Bool :=
  decide (2600 ≤ sic ∧ sic ≤ 2661)

/-- Rule 13 Print of the 38-group scheme. -/
def ff38_rule13 (sic : Int) : Bool :=
  decide (2700 ≤ sic ∧ sic ≤ 2799)

/-- Rule 14 Chems of the 38-group scheme. -/
def ff38_rule14 (sic : Int) : Bool :=
  decide (2800 ≤ sic ∧ sic ≤ 2899)

/-- Rule 15 Ptrlm of the 38-group scheme. -/
def ff38_rule15 (sic : Int) : Bool :=
  decide (2900 ≤ sic ∧ sic ≤ 2999)

/-- Rule 16 Rubbr of the 38-group scheme. -/
def ff38_rule16 (sic : Int) : Bool :=
  decide (3000 ≤ sic ∧ sic ≤ 3099)

/-- Rule 17 Lethr of the 38-group scheme. -/
def ff38_rule17 (sic : Int) : Bool :=
  decide (3100 ≤ sic ∧ sic ≤ 3199)

/-- Rule 18 Glass of the 38-group scheme. -/
def ff38_rule18 (sic : Int) : Bool :=
  decide (3200 ≤ sic ∧ sic ≤ 3299)

/-- Rule 19 Metal of the 38-group scheme. -/
def ff38_rule19 (sic : Int) : Bool :=
  decide (3300 ≤ sic ∧ sic ≤ 3399)

/-- Rule 20 MtlPr of the 38-group scheme. -/
def ff38_rule20 (sic : Int) : Bool :=
  decide (3400 ≤ sic ∧ sic ≤ 3499)

/-- Rule 21 Machn of the 38-group scheme. -/
def ff38_rule21 (sic : Int) : Bool :=
  decide (3500 ≤ sic ∧ sic ≤ 3599)

/-- Rule 22 Elctr of the 38-group scheme. -/
def ff38_rule22 (sic : Int) : Bool :=
  decide (3600 ≤ sic ∧ sic ≤ 3699)

/-- Rule 23 Cars of the 38-group scheme. -/
def ff38_rule23 (sic : Int) : Bool :=
  decide (3700 ≤ sic ∧ sic ≤ 3799)

/-- Rule 24 Instr of the 38-group scheme. -/
def ff38_rule24 (sic : Int) : Bool :=
  decide (3800 ≤ sic ∧ sic ≤ 3879)

/-- Rule 25 Manuf of the 38-group scheme. -/
def ff38_rule25 (sic : Int) : Bool :=
  decide (3900 ≤ sic ∧ sic ≤ 3999)

/-- Rule 26 Trans of the 38-group scheme. -/
def ff38_rule26 (sic : Int) : Bool :=
  decide (4000 ≤ sic ∧ sic ≤ 4799)

/-- Rule 27 Phone of the 38-group scheme. -/
def ff38_rule27 (sic : Int) : Bool :=
  decide (4800 ≤ sic ∧ sic ≤ 4829)

/-- Rule 28 TV of the 38-group scheme. -/
def ff38_rule28 (sic : Int) : Bool :=
  decide (4830 ≤ sic ∧ sic ≤ 4899)

/-- Rule 29 Utils of the 38-group scheme. -/
def ff38_rule29 (sic : Int) : Bool :=
  decide (4900 ≤ sic ∧ sic ≤ 4949)

/-- Rule 30 Garbg of the 38-group scheme. -/
def ff38_rule30 (sic : Int) : Bool :=
  decide (4950 ≤ sic ∧ sic ≤ 4959)

/-- Rule 31 Steam of the 38-group scheme. -/
def ff38_rule31 (sic : Int) : Bool :=
  decide (4960 ≤ sic ∧ sic ≤ 4969)

/-- Rule 32 Water of the 38-group scheme. -/
def ff38_rule32 (sic : Int) : Bool :=
  decide (4970 ≤ sic ∧ sic ≤ 4979)

/-- Rule 33 Whlsl of the 38-group scheme. -/
def ff38_rule33 (sic : Int) : Bool :=
  decide (5000 ≤ sic ∧ sic ≤ 5199)

/-- Rule 34 Rtail of the 38-group scheme. -/
def ff38_rule34 (sic : Int) : Bool :=
  decide (5200 ≤ sic ∧ sic ≤ 5999)

/-- Rule 35 Money of the 38-group scheme. -/
def ff38_rule35 (sic : Int) : Bool :=
  decide (6000 ≤ sic ∧ sic ≤ 6999)

/-- Rule 36 Srvc of the 38-group scheme. -/
def ff38_rule36 (sic : Int) : Bool :=
  decide (7000 ≤ sic ∧ sic ≤ 8999)

/-- Rule 37 Govt of the 38-group scheme. -/
def ff38_rule37 (sic : Int) : Bool :=
  decide (9000 ≤ sic ∧ sic ≤ 9999)

/-- The integer-level 38-group classifier: the ordered if-chain of
`get_ff38_code` after the null check and `int()` coercion; the final
return 38 is the catch-all. -/
def ff38_code (sic : Int) : Int :=
  if ff38_rule1 sic then 1
  else if ff38_rule2 sic then 2
  else if ff38_rule3 sic then 3
  else if ff38_rule4 sic then 4
  else if ff38_rule5 sic then 5
  else if ff38_rule6 sic then 6
  else if ff38_rule7 sic then 7
  else if ff38_rule8 sic then 8
  else if ff38_rule9 sic then 9
  else if ff38_rule10 sic then 10
  else if ff38_rule11 sic then 11
  else if ff38_rule12 sic then 12
  else if ff38_rule13 sic then 13
  else if ff38_rule14 sic then 14
  else if ff38_rule15 sic then 15
  else if ff38_rule16 sic then 16
  else if ff38_rule17 sic then 17
  else if ff38_rule18 sic then 18
  else if ff38_rule19 sic then 19
  else if ff38_rule20 sic then 20
  else if ff38_rule21 sic then 21
  else if ff38_rule22 sic then 22
  else if ff38_rule23 sic then 23
  else if ff38_rule24 sic then 24
  else if ff38_rule25 sic then 25
  else if ff38_rule26 sic then 26
  else if ff38_rule27 sic then 27
  else if ff38_rule28 sic then 28
  else if ff38_rule29 sic then 29
  else if ff38_rule30 sic then 30
  else if ff38_rule31 sic then 31
  else if ff38_rule32 sic then 32
  else if ff38_rule33 sic then 33
  else if ff38_rule34 sic then 34
  else if ff38_rule35 sic then 35
  else if ff38_rule36 sic then 36
  else if ff38_rule37 sic then 37
  else 38
/-- `get_ff38_code` applied to one cell. -/
def get_ff38_code (sic : Cell) : Except Unit Cell :=
  if sic.isnull then .ok .null
  else sic.toIntE.map (fun v => .int (ff38_code v))

/-! ## DataFrame model and record annotators -/

/-- A DataFrame: an ordered association list of named columns. -/
abbrev DataFrame := List (String × List Cell)

/-- Look up a column by name (first match). -/
def getCol : DataFrame → String → Option (List Cell)
  | [], _ => none
  | c :: rest, name => if c.1 = name then some c.2 else getCol rest name

/-- `df[name] = vals`: replace the column in place when the name exists,
append it at the end otherwise — pandas column-assignment semantics. -/
def setCol : DataFrame → String → List Cell → DataFrame
  | [], name, vals => [(name, vals)]
  | c :: rest, name, vals =>
      if c.1 = name then (name, vals) :: rest else c :: setCol rest name vals

/-- Column read that is only used where the column is known to exist. -/
def getColD (df : DataFrame) (name : String) : List Cell :=
  (getCol df name).getD []

/-- `series.map(names)`: a code cell maps through the name table,
an unmapped or missing cell becomes NaN. -/
def mapNames (names : List (Int × String)) : Cell → Cell
  | .int n => match names.lookup n with
              | some s => .str s
              | none => .null
  | _ => .null

/-- One cell of `(codes == i).astype(int)`: 1 when the code cell equals
`i`, else 0 (NaN compares unequal, hence 0). -/
def indicatorCell (i : Int) : Cell → Cell
  | .int n => .int (if n = i then 1 else 0)
  | _ => .int 0

/-- The row-wise one-hot vector `(codes == 1, ..., codes == N)` for one
code cell. -/
def ffIndicators (N : Nat) (code : Cell) : List Cell :=
  (List.range N).map (fun i => indicatorCell ((i : Int) + 1) code)

/-- `assign_ff12_industry(df, sic_col, prefix, ind_code_col)`:
copies the frame, applies `get_ff12_code` to the SIC column (a missing
SIC column or a non-coercible cell is an error), assigns the code
column, the `FF_IND` label column, and the 12 one-hot columns
`pfx1..pfx12`, each computed from the current code column. -/
def assign_ff12_industry (df : DataFrame) (sic_col pfx ind_code_col : String) :
    Except Unit DataFrame :=
  match getCol df sic_col with
  | none => .error ()
  | some sics =>
    match sics.mapM get_ff12_code with
    | .error e => .error e
    | .ok codes =>
      let df1 := setCol df ind_code_col codes
      let df2 := setCol df1 "FF_IND" ((getColD df1 ind_code_col).map (mapNames FF12_NAMES))
      .ok ((List.range 12).foldl (fun d (i : Nat) =>
        setCol d (pfx ++ toString (i + 1))
          ((getColD d ind_code_col).map (indicatorCell ((i : Int) + 1)))) df2)

/-- `assign_ff5_industry(df, sic_col, prefix, ind_code_col)`. -/
def assign_ff5_industry (df : DataFrame) (sic_col pfx ind_code_col : String) :
    Except Unit DataFrame :=
  match getCol df sic_col with
  | none => .error ()
  | some sics =>
    match sics.mapM get_ff5_code with
    | .error e => .error e
    | .ok codes =>
      let df1 := setCol df ind_code_col codes
      let df2 := setCol df1 "FF_IND" ((getColD df1 ind_code_col).map (mapNames FF5_NAMES))
      .ok ((List.range 5).foldl (fun d (i : Nat) =>
        setCol d (pfx ++ toString (i + 1))
          ((getColD d ind_code_col).map (indicatorCell ((i : Int) + 1)))) df2)

/-- `assign_ff38_industry(df, sic_col, prefix, ind_code_col)`. -/
def assign_ff38_industry (df : DataFrame) (sic_col pfx ind_code_col : String) :
    Except Unit DataFrame :=
  match getCol df sic_col with
  | none => .error ()
  | some sics =>
    match sics.mapM get_ff38_code with
    | .error e => .error e
    | .ok codes =>
      let df1 := setCol df ind_code_col codes
      let df2 := setCol df1 "FF_IND" ((getColD df1 ind_code_col).map (mapNames FF38_NAMES))
      .ok ((List.range 38).foldl (fun d (i : Nat) =>
        setCol d (pfx ++ toString (i + 1))
          ((getColD d ind_code_col).map (indicatorCell ((i : Int) + 1)))) df2)

/-- Generic indicator-loop of the annotators: the body of the
`for i in range(1, N+1)` column-assignment loop. -/
def indLoop (pfx icc : String) (l : List Nat) (d : DataFrame) : DataFrame :=
  l.foldl (fun d (i : Nat) =>
    setCol d (pfx ++ toString (i + 1))
      ((getColD d icc).map (indicatorCell ((i : Int) + 1)))) d

/-! ## Derived rule lists (for disjointness statements) -/

/-- The 11 non-catch-all rule predicates of the 12-group scheme,
in priority order. -/
def ff12_rules : List (Int → Bool) :=
  [ff12_rule1, ff12_rule2, ff12_rule3, ff12_rule4, ff12_rule5, ff12_rule6,
   ff12_rule7, ff12_rule8, ff12_rule9, ff12_rule10, ff12_rule11]

/-- The 4 non-catch-all rule predicates of the 5-group scheme. -/
def ff5_rules : List (Int → Bool) :=
  [ff5_rule1, ff5_rule2, ff5_rule3, ff5_rule4]

/-- The 37 non-catch-all rule predicates of the 38-group scheme. -/
def ff38_rules : List (Int → Bool) :=
  [ff38_rule1, ff38_rule2, ff38_rule3, ff38_rule4, ff38_rule5, ff38_rule6,
   ff38_rule7, ff38_rule8, ff38_rule9, ff38_rule10, ff38_rule11, ff38_rule12,
   ff38_rule13, ff38_rule14, ff38_rule15, ff38_rule16, ff38_rule17,
   ff38_rule18, ff38_rule19, ff38_rule20, ff38_rule21, ff38_rule22,
   ff38_rule23, ff38_rule24, ff38_rule25, ff38_rule26, ff38_rule27,
   ff38_rule28, ff38_rule29, ff38_rule30, ff38_rule31, ff38_rule32,
   ff38_rule33, ff38_rule34, ff38_rule35, ff38_rule36, ff38_rule37]

/-- Number of non-catch-all rules of a scheme matching a value. -/
def matchCount (rules : List (Int → Bool)) (v : Int) : Nat :=
  rules.countP (fun p => p v)

/-- The 37 non-catch-all intervals of the 38-group scheme in rule order;
rule k is membership in the k-th interval. -/
def ff38_intervals : List (Int × Int) :=
  [(100, 999), (1000, 1299), (1300, 1399), (1400, 1499), (1500, 1799),
   (2000, 2099), (2100, 2199), (2200, 2299), (2300, 2399), (2400, 2499),
   (2500, 2599), (2600, 2661), (2700, 2799), (2800, 2899), (2900, 2999),
   (3000, 3099), (3100, 3199), (3200, 3299), (3300, 3399), (3400, 3499),
   (3500, 3599), (3600, 3699), (3700, 3799), (3800, 3879), (3900, 3999),
   (4000, 4799), (4800, 4829), (4830, 4899), (4900, 4949), (4950, 4959),
   (4960, 4969), (4970, 4979), (5000, 5199), (5200, 5999), (6000, 6999),
   (7000, 8999), (9000, 9999)]

/-! ## Helper lemmas -/

theorem ff5_code_bounds (v : Int) : 1 ≤ ff5_code v ∧ ff5_code v ≤ 5 := by
  unfold ff5_code
  cases ff5_rule1 v
  case true => norm_num
  cases ff5_rule2 v
  case true => norm_num
  cases ff5_rule3 v
  case true => norm_num
  cases ff5_rule4 v
  case true => norm_num
  norm_num

theorem ff12_code_bounds (v : Int) : 1 ≤ ff12_code v ∧ ff12_code v ≤ 12 := by
  unfold ff12_code
  cases ff12_rule1 v
  case true => norm_num
  cases ff12_rule2 v
  case true => norm_num
  cases ff12_rule3 v
  case true => norm_num
  cases ff12_rule4 v
  case true => norm_num
  cases ff12_rule5 v
  case true => norm_num
  cases ff12_rule6 v
  case true => norm_num
  cases ff12_rule7 v
  case true => norm_num
  cases ff12_rule8 v
  case true => norm_num
  cases ff12_rule9 v
  case true => norm_num
  cases ff12_rule10 v
  case true => norm_num
  cases ff12_rule11 v
  case true => norm_num
  norm_num

theorem ff38_code_bounds (v : Int) : 1 ≤ ff38_code v ∧ ff38_code v ≤ 38 := by
  unfold ff38_code
  cases ff38_rule1 v
  case true => norm_num
  cases ff38_rule2 v
  case true => norm_num
  cases ff38_rule3 v
  case true => norm_num
  cases ff38_rule4 v
  case true => norm_num
  cases ff38_rule5 v
  case true => norm_num
  cases ff38_rule6 v
  case true => norm_num
  cases ff38_rule7 v
  case true => norm_num
  cases ff38_rule8 v
  case true => norm_num
  cases ff38_rule9 v
  case true => norm_num
  cases ff38_rule10 v
  case true => norm_num
  cases ff38_rule11 v
  case true => norm_num
  cases ff38_rule12 v
  case true => norm_num
  cases ff38_rule13 v
  case true => norm_num
  cases ff38_rule14 v
  case true => norm_num
  cases ff38_rule15 v
  case true => norm_num
  cases ff38_rule16 v
  case true => norm_num
  cases ff38_rule17 v
  case true => norm_num
  cases ff38_rule18 v
  case true => norm_num
  cases ff38_rule19 v
  case true => norm_num
  cases ff38_rule20 v
  case true => norm_num
  cases ff38_rule21 v
  case true => norm_num
  cases ff38_rule22 v
  case true => norm_num
  cases ff38_rule23 v
  case true => norm_num
  cases ff38_rule24 v
  case true => norm_num
  cases ff38_rule25 v
  case true => norm_num
  cases ff38_rule26 v
  case true => norm_num
  cases ff38_rule27 v
  case true => norm_num
  cases ff38_rule28 v
  case true => norm_num
  cases ff38_rule29 v
  case true => norm_num
  cases ff38_rule30 v
  case true => norm_num
  cases ff38_rule31 v
  case true => norm_num
  cases ff38_rule32 v
  case true => norm_num
  cases ff38_rule33 v
  case true => norm_num
  cases ff38_rule34 v
  case true => norm_num
  cases ff38_rule35 v
  case true => norm_num
  cases ff38_rule36 v
  case true => norm_num
  cases ff38_rule37 v
  case true => norm_num
  norm_num

theorem Cell.isnull_iff (c : Cell) : c.isnull = true ↔ c = .null := by
  cases c <;> simp [Cell.isnull]

theorem classify_ok_cases (f : Int → Int) (sic out : Cell)
    (h : (if sic.isnull then Except.ok Cell.null
          else sic.toIntE.map (fun v => Cell.int (f v))) = .ok out) :
    (sic = .null ∧ out = .null) ∨ ∃ v : Int, sic.toIntE = .ok v ∧ out = .int (f v) := by
  cases sic with
  | null =>
    simp only [Cell.isnull, if_true, Except.ok.injEq] at h
    exact .inl ⟨rfl, h.symm⟩
  | int n =>
    simp only [Cell.isnull, Bool.false_eq_true, if_false, Cell.toIntE,
      Except.map, Except.ok.injEq] at h
    exact .inr ⟨n, rfl, h.symm⟩
  | str s =>
    simp only [Cell.isnull, Bool.false_eq_true, if_false, Cell.toIntE] at h
    cases hs : parseInt s with
    | none => rw [hs] at h; exact absurd h (by simp [Except.map])
    | some n =>
      rw [hs] at h
      simp only [Except.map, Except.ok.injEq] at h
      exact .inr ⟨n, by simp [Cell.toIntE, hs], h.symm⟩

theorem ffIndicators12_onehot (c : Int) (h1 : 1 ≤ c) (h2 : c ≤ 12) :
    (ffIndicators 12 (Cell.int c)).count (Cell.int 1) = 1 ∧
    (ffIndicators 12 (Cell.int c))[c.toNat - 1]? = some (Cell.int 1) ∧
    ∀ i < 12, i ≠ c.toNat - 1 → (ffIndicators 12 (Cell.int c))[i]? = some (Cell.int 0) := by
  interval_cases c <;> decide

theorem ffIndicators38_onehot (c : Int) (h1 : 1 ≤ c) (h2 : c ≤ 38) :
    (ffIndicators 38 (Cell.int c)).count (Cell.int 1) = 1 ∧
    (ffIndicators 38 (Cell.int c))[c.toNat - 1]? = some (Cell.int 1) ∧
    ∀ i < 38, i ≠ c.toNat - 1 → (ffIndicators 38 (Cell.int c))[i]? = some (Cell.int 0) := by
  interval_cases c <;> decide

theorem countP_le_one_of_pairwise (l : List (Int → Bool)) (v : Int)
    (h : l.Pairwise (fun p q => ¬(p v = true ∧ q v = true))) :
    l.countP (fun p => p v) ≤ 1 := by
  induction l with
  | nil => simp
  | cons p ps ih =>
    rcases List.pairwise_cons.mp h with ⟨hp, hps⟩
    by_cases hv : p v = true
    · have hz : ps.countP (fun q => q v) = 0 :=
        List.countP_eq_zero.mpr (fun q hq => by
          simp only [Bool.not_eq_true]
          by_contra hqv
          exact hp q hq ⟨hv, by simpa using hqv⟩)
      simp [List.countP_cons, hv, hz]
    · simp only [List.countP_cons, hv, if_false, add_zero]
      exact ih hps

theorem ff38_pairwise_disjoint (v : Int) :
    ff38_rules.Pairwise (fun p q => ¬(p v = true ∧ q v = true)) := by
  have he : ff38_rules
      = ff38_intervals.map (fun I => fun w => decide (I.1 ≤ w ∧ w ≤ I.2)) := rfl
  rw [he, List.pairwise_map]
  have h : ff38_intervals.Pairwise (fun I J => I.2 < J.1) := by decide
  exact h.imp (fun hIJ ⟨hp, hq⟩ => by
    simp only [decide_eq_true_eq] at hp hq
    omega)

theorem ffIndicators5_onehot (c : Int) (h1 : 1 ≤ c) (h2 : c ≤ 5) :
    (ffIndicators 5 (Cell.int c)).count (Cell.int 1) = 1 ∧
    (ffIndicators 5 (Cell.int c))[c.toNat - 1]? = some (Cell.int 1) ∧
    ∀ i < 5, i ≠ c.toNat - 1 → (ffIndicators 5 (Cell.int c))[i]? = some (Cell.int 0) := by
  interval_cases c <;> decide

theorem ff12_pairwise_disjoint (v : Int) :
    ff12_rules.Pairwise (fun p q => ¬(p v = true ∧ q v = true)) := by
  simp only [ff12_rules, List.pairwise_cons, List.forall_mem_cons, List.not_mem_nil,
    List.Pairwise.nil, List.forall_mem_nil, and_true, true_and, false_implies,
    forall_const,
    ff12_rule1, ff12_rule2, ff12_rule3, ff12_rule4, ff12_rule5, ff12_rule6,
    ff12_rule7, ff12_rule8, ff12_rule9, ff12_rule10, ff12_rule11,
    decide_eq_true_eq]
  omega

theorem ff5_pairwise_except23 (v : Int) :
    ¬(ff5_rule1 v = true ∧ ff5_rule2 v = true) ∧
    ¬(ff5_rule1 v = true ∧ ff5_rule3 v = true) ∧
    ¬(ff5_rule1 v = true ∧ ff5_rule4 v = true) ∧
    ¬(ff5_rule2 v = true ∧ ff5_rule4 v = true) ∧
    ¬(ff5_rule3 v = true ∧ ff5_rule4 v = true) := by
  simp only [ff5_rule1, ff5_rule2, ff5_rule3, ff5_rule4, decide_eq_true_eq]
  omega

theorem ff5_overlap23 (v : Int) :
    (ff5_rule2 v = true ∧ ff5_rule3 v = true) ↔
      (v = 3622 ∨ (3830 ≤ v ∧ v ≤ 3839)) := by
  simp only [ff5_rule2, ff5_rule3, decide_eq_true_eq]
  omega

theorem ff5_code_eq_catchall_iff (v : Int) :
    ff5_code v = 5 ↔ (ff5_rule1 v = false ∧
      ff5_rule2 v = false ∧
      ff5_rule3 v = false ∧
      ff5_rule4 v = false) := by
  unfold ff5_code
  cases ff5_rule1 v
  case true => norm_num
  cases ff5_rule2 v
  case true => norm_num
  cases ff5_rule3 v
  case true => norm_num
  cases ff5_rule4 v
  case true => norm_num
  norm_num

theorem ff12_code_eq_catchall_iff (v : Int) :
    ff12_code v = 12 ↔ (ff12_rule1 v = false ∧
      ff12_rule2 v = false ∧
      ff12_rule3 v = false ∧
      ff12_rule4 v = false ∧
      ff12_rule5 v = false ∧
      ff12_rule6 v = false ∧
      ff12_rule7 v = false ∧
      ff12_rule8 v = false ∧
      ff12_rule9 v = false ∧
      ff12_rule10 v = false ∧
      ff12_rule11 v = false) := by
  unfold ff12_code
  cases ff12_rule1 v
  case true => norm_num
  cases ff12_rule2 v
  case true => norm_num
  cases ff12_rule3 v
  case true => norm_num
  cases ff12_rule4 v
  case true => norm_num
  cases ff12_rule5 v
  case true => norm_num
  cases ff12_rule6 v
  case true => norm_num
  cases ff12_rule7 v
  case true => norm_num
  cases ff12_rule8 v
  case true => norm_num
  cases ff12_rule9 v
  case true => norm_num
  cases ff12_rule10 v
  case true => norm_num
  cases ff12_rule11 v
  case true => norm_num
  norm_num

theorem ff38_code_eq_catchall_iff (v : Int) :
    ff38_code v = 38 ↔ (ff38_rule1 v = false ∧
      ff38_rule2 v = false ∧
      ff38_rule3 v = false ∧
      ff38_rule4 v = false ∧
      ff38_rule5 v = false ∧
      ff38_rule6 v = false ∧
      ff38_rule7 v = false ∧
      ff38_rule8 v = false ∧
      ff38_rule9 v = false ∧
      ff38_rule10 v = false ∧
      ff38_rule11 v = false ∧
      ff38_rule12 v = false ∧
      ff38_rule13 v = false ∧
      ff38_rule14 v = false ∧
      ff38_rule15 v = false ∧
      ff38_rule16 v = false ∧
      ff38_rule17 v = false ∧
      ff38_rule18 v = false ∧
      ff38_rule19 v = false ∧
      ff38_rule20 v = false ∧
      ff38_rule21 v = false ∧
      ff38_rule22 v = false ∧
      ff38_rule23 v = false ∧
      ff38_rule24 v = false ∧
      ff38_rule25 v = false ∧
      ff38_rule26 v = false ∧
      ff38_rule27 v = false ∧
      ff38_rule28 v = false ∧
      ff38_rule29 v = false ∧
      ff38_rule30 v = false ∧
      ff38_rule31 v = false ∧
      ff38_rule32 v = false ∧
      ff38_rule33 v = false ∧
      ff38_rule34 v = false ∧
      ff38_rule35 v = false ∧
      ff38_rule36 v = false ∧
      ff38_rule37 v = false) := by
  unfold ff38_code
  cases ff38_rule1 v
  case true => norm_num
  cases ff38_rule2 v
  case true => norm_num
  cases ff38_rule3 v
  case true => norm_num
  cases ff38_rule4 v
  case true => norm_num
  cases ff38_rule5 v
  case true => norm_num
  cases ff38_rule6 v
  case true => norm_num
  cases ff38_rule7 v
  case true => norm_num
  cases ff38_rule8 v
  case true => norm_num
  cases ff38_rule9 v
  case true => norm_num
  cases ff38_rule10 v
  case true => norm_num
  cases ff38_rule11 v
  case true => norm_num
  cases ff38_rule12 v
  case true => norm_num
  cases ff38_rule13 v
  case true => norm_num
  cases ff38_rule14 v
  case true => norm_num
  cases ff38_rule15 v
  case true => norm_num
  cases ff38_rule16 v
  case true => norm_num
  cases ff38_rule17 v
  case true => norm_num
  cases ff38_rule18 v
  case true => norm_num
  cases ff38_rule19 v
  case true => norm_num
  cases ff38_rule20 v
  case true => norm_num
  cases ff38_rule21 v
  case true => norm_num
  cases ff38_rule22 v
  case true => norm_num
  cases ff38_rule23 v
  case true => norm_num
  cases ff38_rule24 v
  case true => norm_num
  cases ff38_rule25 v
  case true => norm_num
  cases ff38_rule26 v
  case true => norm_num
  cases ff38_rule27 v
  case true => norm_num
  cases ff38_rule28 v
  case true => norm_num
  cases ff38_rule29 v
  case true => norm_num
  cases ff38_rule30 v
  case true => norm_num
  cases ff38_rule31 v
  case true => norm_num
  cases ff38_rule32 v
  case true => norm_num
  cases ff38_rule33 v
  case true => norm_num
  cases ff38_rule34 v
  case true => norm_num
  cases ff38_rule35 v
  case true => norm_num
  cases ff38_rule36 v
  case true => norm_num
  cases ff38_rule37 v
  case true => norm_num
  norm_num

theorem getCol_setCol_self (df : DataFrame) (name : String) (vals : List Cell) :
    getCol (setCol df name vals) name = some vals := by
  induction df with
  | nil => simp [setCol, getCol]
  | cons c rest ih =>
    by_cases h : c.1 = name
    · simp [setCol, getCol, h]
    · simp [setCol, getCol, h, ih]

theorem getCol_setCol_ne (df : DataFrame) (name col : String) (vals : List Cell)
    (h : col ≠ name) :
    getCol (setCol df name vals) col = getCol df col := by
  induction df with
  | nil => simp [setCol, getCol, Ne.symm h]
  | cons c rest ih =>
    by_cases hc : c.1 = name
    · simp [setCol, getCol, hc, Ne.symm h]
    · simp only [setCol, if_neg hc, getCol]
      by_cases hcol : c.1 = col
      · simp [hcol]
      · simp [hcol, ih]

theorem indLoop_cons (pfx icc : String) (a : Nat) (l : List Nat) (d : DataFrame) :
    indLoop pfx icc (a :: l) d
      = indLoop pfx icc l
          (setCol d (pfx ++ toString (a + 1))
            ((getColD d icc).map (indicatorCell ((a : Int) + 1)))) := rfl

theorem getCol_indLoop_ne (pfx icc : String) (l : List Nat) (d : DataFrame)
    (col : String) (h : ∀ i ∈ l, col ≠ pfx ++ toString (i + 1)) :
    getCol (indLoop pfx icc l d) col = getCol d col := by
  induction l generalizing d with
  | nil => rfl
  | cons a l ih =>
    rw [indLoop_cons, ih _ (fun i hi => h i (List.mem_cons_of_mem a hi))]
    exact getCol_setCol_ne _ _ _ _ (h a (List.mem_cons_self a l))

theorem getColD_eq (d : DataFrame) (name : String) (vals : List Cell)
    (h : getCol d name = some vals) : getColD d name = vals := by
  simp [getColD, h]

theorem getCol_indLoop_spec (pfx icc : String) (codes : List Cell) :
    ∀ (l : List Nat) (d : DataFrame), l.Nodup →
    (∀ i ∈ l, icc ≠ pfx ++ toString (i + 1)) →
    (∀ i ∈ l, ∀ j ∈ l, pfx ++ toString (i + 1) = pfx ++ toString (j + 1) → i = j) →
    getCol d icc = some codes →
    getCol (indLoop pfx icc l d) icc = some codes ∧
    ∀ k ∈ l, getCol (indLoop pfx icc l d) (pfx ++ toString (k + 1))
      = some (codes.map (indicatorCell ((k : Int) + 1))) := by
  intro l
  induction l with
  | nil => exact fun d _ _ _ hget => ⟨hget, by simp⟩
  | cons a l ih =>
    intro d hnd hicc hinj hget
    have hmem_a : a ∈ a :: l := List.mem_cons_self a l
    have hd' : getCol
        (setCol d (pfx ++ toString (a + 1))
          ((getColD d icc).map (indicatorCell ((a : Int) + 1)))) icc = some codes := by
      rw [getCol_setCol_ne _ _ _ _ (hicc a hmem_a)]
      exact hget
    have hnd' := (List.nodup_cons.mp hnd).2
    have hna := (List.nodup_cons.mp hnd).1
    obtain ⟨ih1, ih2⟩ := ih _ hnd'
      (fun i hi => hicc i (List.mem_cons_of_mem a hi))
      (fun i hi j hj => hinj i (List.mem_cons_of_mem a hi) j (List.mem_cons_of_mem a hj))
      hd'
    refine ⟨by rw [indLoop_cons]; exact ih1, ?_⟩
    intro k hk
    rcases List.mem_cons.mp hk with rfl | hk'
    · rw [indLoop_cons, getCol_indLoop_ne _ _ _ _ _ (fun i hi he =>
        hna ((hinj k hmem_a i (List.mem_cons_of_mem k hi) he).symm ▸ hi))]
      rw [getCol_setCol_self, getColD_eq d icc codes hget]
    · rw [indLoop_cons]
      exact ih2 k hk'

theorem assign_ff12_eq (df : DataFrame) (sic_col pfx icc : String)
    (sics codes : List Cell)
    (h1 : getCol df sic_col = some sics)
    (h2 : sics.mapM get_ff12_code = .ok codes) :
    assign_ff12_industry df sic_col pfx icc
      = .ok (indLoop pfx icc (List.range 12)
          (setCol (setCol df icc codes) "FF_IND"
            ((getColD (setCol df icc codes) icc).map (mapNames FF12_NAMES)))) := by
  simp only [assign_ff12_industry, h1, h2, indLoop]

theorem assign_ff5_eq (df : DataFrame) (sic_col pfx icc : String)
    (sics codes : List Cell)
    (h1 : getCol df sic_col = some sics)
    (h2 : sics.mapM get_ff5_code = .ok codes) :
    assign_ff5_industry df sic_col pfx icc
      = .ok (indLoop pfx icc (List.range 5)
          (setCol (setCol df icc codes) "FF_IND"
            ((getColD (setCol df icc codes) icc).map (mapNames FF5_NAMES)))) := by
  simp only [assign_ff5_industry, h1, h2, indLoop]

theorem assign_ff38_eq (df : DataFrame) (sic_col pfx icc : String)
    (sics codes : List Cell)
    (h1 : getCol df sic_col = some sics)
    (h2 : sics.mapM get_ff38_code = .ok codes) :
    assign_ff38_industry df sic_col pfx icc
      = .ok (indLoop pfx icc (List.range 38)
          (setCol (setCol df icc codes) "FF_IND"
            ((getColD (setCol df icc codes) icc).map (mapNames FF38_NAMES)))) := by
  simp only [assign_ff38_industry, h1, h2, indLoop]

theorem getCol_assign_rhs_ne (N : Nat) (nm : List (Int × String))
    (codes : List Cell) (df : DataFrame) (pfx icc col : String)
    (h1 : col ≠ icc) (h2 : col ≠ "FF_IND")
    (h3 : ∀ i ∈ List.range N, col ≠ pfx ++ toString (i + 1)) :
    getCol (indLoop pfx icc (List.range N)
        (setCol (setCol df icc codes) "FF_IND"
          ((getColD (setCol df icc codes) icc).map (mapNames nm)))) col
      = getCol df col := by
  rw [getCol_indLoop_ne _ _ _ _ _ h3, getCol_setCol_ne _ _ _ _ h2,
    getCol_setCol_ne _ _ _ _ h1]

theorem getCol_assign_rhs_out (N : Nat) (nm : List (Int × String))
    (codes : List Cell) (df : DataFrame)
    (hicc : ∀ i ∈ List.range N, ("FF_IND_CODE" : String) ≠ "i" ++ toString (i + 1))
    (hff : ∀ i ∈ List.range N, ("FF_IND" : String) ≠ "i" ++ toString (i + 1))
    (hinj : ∀ i ∈ List.range N, ∀ j ∈ List.range N,
      ("i" : String) ++ toString (i + 1) = "i" ++ toString (j + 1) → i = j) :
    getCol (indLoop "i" "FF_IND_CODE" (List.range N)
        (setCol (setCol df "FF_IND_CODE" codes) "FF_IND"
          ((getColD (setCol df "FF_IND_CODE" codes) "FF_IND_CODE").map (mapNames nm))))
        "FF_IND_CODE" = some codes ∧
    getCol (indLoop "i" "FF_IND_CODE" (List.range N)
        (setCol (setCol df "FF_IND_CODE" codes) "FF_IND"
          ((getColD (setCol df "FF_IND_CODE" codes) "FF_IND_CODE").map (mapNames nm))))
        "FF_IND" = some (codes.map (mapNames nm)) ∧
    ∀ k < N, getCol (indLoop "i" "FF_IND_CODE" (List.range N)
        (setCol (setCol df "FF_IND_CODE" codes) "FF_IND"
          ((getColD (setCol df "FF_IND_CODE" codes) "FF_IND_CODE").map (mapNames nm))))
        ("i" ++ toString (k + 1))
      = some (codes.map (indicatorCell ((k : Int) + 1))) := by
  have hd1 : getCol (setCol df "FF_IND_CODE" codes) "FF_IND_CODE" = some codes :=
    getCol_setCol_self _ _ _
  have hld : getColD (setCol df "FF_IND_CODE" codes) "FF_IND_CODE" = codes :=
    getColD_eq _ _ _ hd1
  have hd2 : getCol
      (setCol (setCol df "FF_IND_CODE" codes) "FF_IND"
        ((getColD (setCol df "FF_IND_CODE" codes) "FF_IND_CODE").map (mapNames nm)))
      "FF_IND_CODE" = some codes := by
    rw [getCol_setCol_ne _ _ _ _ (by decide)]
    exact hd1
  obtain ⟨hA, hB⟩ := getCol_indLoop_spec "i" "FF_IND_CODE" codes (List.range N) _
    (List.nodup_range N) hicc hinj hd2
  refine ⟨hA, ?_, ?_⟩
  · rw [getCol_indLoop_ne _ _ _ _ _ hff, getCol_setCol_self, hld]
  · intro k hk
    exact hB k (List.mem_range.mpr hk)

/-- C1: for every scheme N in {5, 12, 38} and every integer v in [0, 9999],
the classifier returns exactly one industry code (it is a function, and on a
non-missing integer cell it returns exactly the ok-value of the rule chain),
and that code lies in 1..N. -/
theorem claim_C1_totality (v : Int) (h0 : 0 ≤ v) (h1 : v ≤ 9999) :
    (get_ff5_code (.int v) = .ok (.int (ff5_code v)) ∧
      1 ≤ ff5_code v ∧ ff5_code v ≤ 5) ∧
    (get_ff12_code (.int v) = .ok (.int (ff12_code v)) ∧
      1 ≤ ff12_code v ∧ ff12_code v ≤ 12) ∧
    (get_ff38_code (.int v) = .ok (.int (ff38_code v)) ∧
      1 ≤ ff38_code v ∧ ff38_code v ≤ 38) :=
  ⟨⟨rfl, ff5_code_bounds v⟩, ⟨rfl, ff12_code_bounds v⟩, ⟨rfl, ff38_code_bounds v⟩⟩

/-- Witness for C1 at v = 1311. -/
theorem claim_C1_totality_witness :
    (0 : Int) ≤ 1311 ∧ (1311 : Int) ≤ 9999 ∧
    (1 ≤ ff12_code 1311 ∧ ff12_code 1311 ≤ 12) :=
  ⟨by decide, by decide, (claim_C1_totality 1311 (by decide) (by decide)).2.1.2⟩

/-- C4 counterexample: in the 5-group scheme, rules 2 (Manuf) and 3 (HiTec)
are two distinct non-catch-all rules that both match SIC 3622 in [0, 9999],
so the rule predicates are not pairwise disjoint, and the singleton rule for
3622 inside rule 3 is shadowed: 3622 classifies as 2. -/
theorem claim_C4_counterexample :
    (0 : Int) ≤ 3622 ∧ (3622 : Int) ≤ 9999 ∧
    ff5_rule2 3622 = true ∧ ff5_rule3 3622 = true ∧
    2 ≤ matchCount ff5_rules 3622 ∧ ff5_code 3622 = 2 := by decide

/-- C4 [corrected]: in the 12- and 38-group schemes the non-catch-all rule
predicates are pairwise disjoint over [0, 9999] (at most one matches any v);
in the 5-group scheme every pair of rules is disjoint except rules 2 and 3,
whose overlap is exactly {3622} ∪ [3830, 3839], and there SIC values classify
as 2 — in particular the singleton 3622 of rule 3 is unreachable. -/
theorem claim_C4_disjointness_amended :
    (∀ v : Int, 0 ≤ v → v ≤ 9999 →
      matchCount ff12_rules v ≤ 1 ∧ matchCount ff38_rules v ≤ 1) ∧
    (∀ v : Int, (ff5_rule2 v = true ∧ ff5_rule3 v = true) ↔
      (v = 3622 ∨ (3830 ≤ v ∧ v ≤ 3839))) ∧
    (∀ v : Int,
      ¬(ff5_rule1 v = true ∧ ff5_rule2 v = true) ∧
      ¬(ff5_rule1 v = true ∧ ff5_rule3 v = true) ∧
      ¬(ff5_rule1 v = true ∧ ff5_rule4 v = true) ∧
      ¬(ff5_rule2 v = true ∧ ff5_rule4 v = true) ∧
      ¬(ff5_rule3 v = true ∧ ff5_rule4 v = true)) ∧
    ff5_code 3622 = 2 ∧ ff5_code 3830 = 2 :=
  ⟨fun v _ _ => ⟨countP_le_one_of_pairwise _ _ (ff12_pairwise_disjoint v),
      countP_le_one_of_pairwise _ _ (ff38_pairwise_disjoint v)⟩,
    ff5_overlap23, ff5_pairwise_except23, by decide, by decide⟩

/-- Witness for C4 [corrected] at v = 1311. -/
theorem claim_C4_disjointness_amended_witness :
    (0 : Int) ≤ 1311 ∧ (1311 : Int) ≤ 9999 ∧
    matchCount ff12_rules 1311 ≤ 1 ∧ matchCount ff38_rules 1311 ≤ 1 :=
  ⟨by decide, by decide,
    (claim_C4_disjointness_amended.1 1311 (by decide) (by decide)).1,
    (claim_C4_disjointness_amended.1 1311 (by decide) (by decide)).2⟩

/-- C5: the concrete scenarios of the spec: 12-group 1311↦4 Enrgy,
2834↦10 Hlth, 3571↦6 BusEq, 100↦1 NoDur, Missing↦Missing with all twelve
indicators 0; 5-group 1500↦5 Other, 8001↦4 Hlth; 38-group 900↦1 Agric,
6797↦35 Money, 9100↦37 Govt. -/
theorem claim_C5_concrete_scenarios :
    ff12_code 1311 = 4 ∧ mapNames FF12_NAMES (.int (ff12_code 1311)) = .str "Enrgy" ∧
    ff12_code 2834 = 10 ∧ mapNames FF12_NAMES (.int (ff12_code 2834)) = .str "Hlth" ∧
    ff12_code 3571 = 6 ∧ mapNames FF12_NAMES (.int (ff12_code 3571)) = .str "BusEq" ∧
    ff12_code 100 = 1 ∧ mapNames FF12_NAMES (.int (ff12_code 100)) = .str "NoDur" ∧
    get_ff12_code .null = .ok .null ∧ mapNames FF12_NAMES .null = .null ∧
    (∀ x ∈ ffIndicators 12 Cell.null, x = .int 0) ∧
    ff5_code 1500 = 5 ∧ mapNames FF5_NAMES (.int (ff5_code 1500)) = .str "Other" ∧
    ff5_code 8001 = 4 ∧ mapNames FF5_NAMES (.int (ff5_code 8001)) = .str "Hlth" ∧
    ff38_code 900 = 1 ∧ mapNames FF38_NAMES (.int (ff38_code 900)) = .str "Agric" ∧
    ff38_code 6797 = 35 ∧ mapNames FF38_NAMES (.int (ff38_code 6797)) = .str "Money" ∧
    ff38_code 9100 = 37 ∧ mapNames FF38_NAMES (.int (ff38_code 9100)) = .str "Govt" :=
  ⟨by decide, by decide, by decide, by decide, by decide, by decide, by decide, by decide, rfl, by decide, by decide, by decide, by decide, by decide, by decide, by decide, by decide, by decide, by decide, by decide, by decide⟩

/-- C6: every integer outside [0, 9999] (negative or at least 10000) falls
through every rule of every scheme and receives the catch-all code N, with
no error. -/
theorem claim_C6_out_of_range (v : Int) (h : v < 0 ∨ 10000 ≤ v) :
    ff5_code v = 5 ∧ ff12_code v = 12 ∧ ff38_code v = 38 := by
  refine ⟨?_, ?_, ?_⟩
  · rw [ff5_code_eq_catchall_iff]
    simp only [ff5_rule1, ff5_rule2, ff5_rule3, ff5_rule4, decide_eq_false_iff_not]
    omega
  · rw [ff12_code_eq_catchall_iff]
    simp only [ff12_rule1, ff12_rule2, ff12_rule3, ff12_rule4, ff12_rule5, ff12_rule6, ff12_rule7, ff12_rule8, ff12_rule9, ff12_rule10, ff12_rule11, decide_eq_false_iff_not]
    omega
  · rw [ff38_code_eq_catchall_iff]
    simp only [ff38_rule1, ff38_rule2, ff38_rule3, ff38_rule4, ff38_rule5, ff38_rule6, ff38_rule7, ff38_rule8, ff38_rule9, ff38_rule10, ff38_rule11, ff38_rule12, ff38_rule13, ff38_rule14, ff38_rule15, ff38_rule16, ff38_rule17, ff38_rule18, ff38_rule19, ff38_rule20, ff38_rule21, ff38_rule22, ff38_rule23, ff38_rule24, ff38_rule25, ff38_rule26, ff38_rule27, ff38_rule28, ff38_rule29, ff38_rule30, ff38_rule31, ff38_rule32, ff38_rule33, ff38_rule34, ff38_rule35, ff38_rule36, ff38_rule37, decide_eq_false_iff_not]
    omega

/-- Witness for C6 at v = -7. -/
theorem claim_C6_out_of_range_witness :
    ((-7 : Int) < 0 ∨ 10000 ≤ (-7 : Int)) ∧
    ff5_code (-7) = 5 ∧ ff12_code (-7) = 12 ∧ ff38_code (-7) = 38 :=
  ⟨Or.inl (by decide), claim_C6_out_of_range (-7) (Or.inl (by decide))⟩

/-- C7: the 5-group classification is not a coarsening of the 12-group one:
no map m sends every 12-group code to the corresponding 5-group code on
[0, 9999]; witnessed by SIC 1500 and 7391, which share 12-group code 12 but
have 5-group codes 5 and 3. -/
theorem claim_C7_not_coarsening :
    (¬ ∃ m : Int → Int, ∀ v : Int, 0 ≤ v → v ≤ 9999 →
        ff5_code v = m (ff12_code v)) ∧
    (0 : Int) ≤ 1500 ∧ (1500 : Int) ≤ 9999 ∧
    (0 : Int) ≤ 7391 ∧ (7391 : Int) ≤ 9999 ∧
    ff12_code 1500 = ff12_code 7391 ∧ ff5_code 1500 ≠ ff5_code 7391 := by
  refine ⟨?_, by decide, by decide, by decide, by decide, by decide, by decide⟩
  rintro ⟨m, hm⟩
  have h1 := hm 1500 (by decide) (by decide)
  have h2 := hm 7391 (by decide) (by decide)
  rw [show ff12_code 1500 = 12 by decide, show ff5_code 1500 = 5 by decide] at h1
  rw [show ff12_code 7391 = 12 by decide, show ff5_code 7391 = 3 by decide] at h2
  omega

/-- C10: within [0, 9999] the 38-group catch-all code 38 is received exactly
on [0, 99] ∪ [1800, 1999] ∪ [2662, 2699] ∪ [3880, 3899] ∪ [4980, 4999];
every other value is matched by one of rules 1..37. -/
theorem claim_C10_ff38_catchall_set (v : Int) (h0 : 0 ≤ v) (h1 : v ≤ 9999) :
    (ff38_code v = 38 ↔ (v ≤ 99 ∨ (1800 ≤ v ∧ v ≤ 1999) ∨
      (2662 ≤ v ∧ v ≤ 2699) ∨ (3880 ≤ v ∧ v ≤ 3899) ∨ (4980 ≤ v ∧ v ≤ 4999))) ∧
    (¬(v ≤ 99 ∨ (1800 ≤ v ∧ v ≤ 1999) ∨ (2662 ≤ v ∧ v ≤ 2699) ∨
      (3880 ≤ v ∧ v ≤ 3899) ∨ (4980 ≤ v ∧ v ≤ 4999)) →
      1 ≤ ff38_code v ∧ ff38_code v ≤ 37) := by
  have hgap : ff38_code v = 38 ↔ (v ≤ 99 ∨ (1800 ≤ v ∧ v ≤ 1999) ∨
      (2662 ≤ v ∧ v ≤ 2699) ∨ (3880 ≤ v ∧ v ≤ 3899) ∨ (4980 ≤ v ∧ v ≤ 4999)) := by
    rw [ff38_code_eq_catchall_iff]
    simp only [ff38_rule1, ff38_rule2, ff38_rule3, ff38_rule4, ff38_rule5, ff38_rule6, ff38_rule7, ff38_rule8, ff38_rule9, ff38_rule10, ff38_rule11, ff38_rule12, ff38_rule13, ff38_rule14, ff38_rule15, ff38_rule16, ff38_rule17, ff38_rule18, ff38_rule19, ff38_rule20, ff38_rule21, ff38_rule22, ff38_rule23, ff38_rule24, ff38_rule25, ff38_rule26, ff38_rule27, ff38_rule28, ff38_rule29, ff38_rule30, ff38_rule31, ff38_rule32, ff38_rule33, ff38_rule34, ff38_rule35, ff38_rule36, ff38_rule37, decide_eq_false_iff_not]
    omega
  refine ⟨hgap, fun hn => ⟨(ff38_code_bounds v).1, ?_⟩⟩
  have hb2 := (ff38_code_bounds v).2
  by_cases he : ff38_code v = 38
  · exact absurd (hgap.mp he) hn
  · omega

/-- Witness for C10 at v = 1800. -/
theorem claim_C10_ff38_catchall_set_witness :
    (0 : Int) ≤ 1800 ∧ (1800 : Int) ≤ 9999 ∧
    ((ff38_code 1800 = 38 ↔ ((1800 : Int) ≤ 99 ∨
      ((1800 : Int) ≤ 1800 ∧ (1800 : Int) ≤ 1999) ∨
      ((2662 : Int) ≤ 1800 ∧ (1800 : Int) ≤ 2699) ∨
      ((3880 : Int) ≤ 1800 ∧ (1800 : Int) ≤ 3899) ∨
      ((4980 : Int) ≤ 1800 ∧ (1800 : Int) ≤ 4999))) ∧
    (¬((1800 : Int) ≤ 99 ∨ ((1800 : Int) ≤ 1800 ∧ (1800 : Int) ≤ 1999) ∨
      ((2662 : Int) ≤ 1800 ∧ (1800 : Int) ≤ 2699) ∨
      ((3880 : Int) ≤ 1800 ∧ (1800 : Int) ≤ 3899) ∨
      ((4980 : Int) ≤ 1800 ∧ (1800 : Int) ≤ 4999)) →
      1 ≤ ff38_code 1800 ∧ ff38_code 1800 ≤ 37)) :=
  ⟨by decide, by decide, claim_C10_ff38_catchall_set 1800 (by decide) (by decide)⟩

/-- C2: for every record annotated by any of the three annotate operations,
on a present industry code exactly one of the N indicator fields is 1 and it
sits at the position equal to the code, all others 0; on a missing SIC the
code cell is missing, the label cell is missing, and all N indicators are
integer 0. -/
theorem claim_C2_onehot_invariant :
    (∀ (sic out : Cell), get_ff12_code sic = .ok out →
      (sic = .null → out = .null ∧ mapNames FF12_NAMES out = .null ∧
        ∀ x ∈ ffIndicators 12 out, x = .int 0) ∧
      (sic ≠ .null → ∃ c : Int, out = .int c ∧ 1 ≤ c ∧ c ≤ 12 ∧
        (ffIndicators 12 out).count (.int 1) = 1 ∧
        (ffIndicators 12 out)[c.toNat - 1]? = some (.int 1) ∧
        ∀ i < 12, i ≠ c.toNat - 1 → (ffIndicators 12 out)[i]? = some (.int 0))) ∧
    (∀ (sic out : Cell), get_ff5_code sic = .ok out →
      (sic = .null → out = .null ∧ mapNames FF5_NAMES out = .null ∧
        ∀ x ∈ ffIndicators 5 out, x = .int 0) ∧
      (sic ≠ .null → ∃ c : Int, out = .int c ∧ 1 ≤ c ∧ c ≤ 5 ∧
        (ffIndicators 5 out).count (.int 1) = 1 ∧
        (ffIndicators 5 out)[c.toNat - 1]? = some (.int 1) ∧
        ∀ i < 5, i ≠ c.toNat - 1 → (ffIndicators 5 out)[i]? = some (.int 0))) ∧
    (∀ (sic out : Cell), get_ff38_code sic = .ok out →
      (sic = .null → out = .null ∧ mapNames FF38_NAMES out = .null ∧
        ∀ x ∈ ffIndicators 38 out, x = .int 0) ∧
      (sic ≠ .null → ∃ c : Int, out = .int c ∧ 1 ≤ c ∧ c ≤ 38 ∧
        (ffIndicators 38 out).count (.int 1) = 1 ∧
        (ffIndicators 38 out)[c.toNat - 1]? = some (.int 1) ∧
        ∀ i < 38, i ≠ c.toNat - 1 → (ffIndicators 38 out)[i]? = some (.int 0))) := by
  refine ⟨?_, ?_, ?_⟩
  · intro sic out h
    unfold get_ff12_code at h
    rcases classify_ok_cases ff12_code sic out h with ⟨hs, ho⟩ | ⟨v, hv, ho⟩
    · subst hs
      subst ho
      exact ⟨fun _ => ⟨rfl, rfl, by decide⟩, fun hne => absurd rfl hne⟩
    · subst ho
      refine ⟨fun hnull => ?_, fun _ => ?_⟩
      · subst hnull
        simp [Cell.toIntE] at hv
      · obtain ⟨hb1, hb2⟩ := ff12_code_bounds v
        obtain ⟨hc1, hc2, hc3⟩ := ffIndicators12_onehot (ff12_code v) hb1 hb2
        exact ⟨ff12_code v, rfl, hb1, hb2, hc1, hc2, hc3⟩
  · intro sic out h
    unfold get_ff5_code at h
    rcases classify_ok_cases ff5_code sic out h with ⟨hs, ho⟩ | ⟨v, hv, ho⟩
    · subst hs
      subst ho
      exact ⟨fun _ => ⟨rfl, rfl, by decide⟩, fun hne => absurd rfl hne⟩
    · subst ho
      refine ⟨fun hnull => ?_, fun _ => ?_⟩
      · subst hnull
        simp [Cell.toIntE] at hv
      · obtain ⟨hb1, hb2⟩ := ff5_code_bounds v
        obtain ⟨hc1, hc2, hc3⟩ := ffIndicators5_onehot (ff5_code v) hb1 hb2
        exact ⟨ff5_code v, rfl, hb1, hb2, hc1, hc2, hc3⟩
  · intro sic out h
    unfold get_ff38_code at h
    rcases classify_ok_cases ff38_code sic out h with ⟨hs, ho⟩ | ⟨v, hv, ho⟩
    · subst hs
      subst ho
      exact ⟨fun _ => ⟨rfl, rfl, by decide⟩, fun hne => absurd rfl hne⟩
    · subst ho
      refine ⟨fun hnull => ?_, fun _ => ?_⟩
      · subst hnull
        simp [Cell.toIntE] at hv
      · obtain ⟨hb1, hb2⟩ := ff38_code_bounds v
        obtain ⟨hc1, hc2, hc3⟩ := ffIndicators38_onehot (ff38_code v) hb1 hb2
        exact ⟨ff38_code v, rfl, hb1, hb2, hc1, hc2, hc3⟩

/-- Witness for C2: the 12-group conclusion instantiated at the record with
SIC 1311 and output code cell 4. -/
theorem claim_C2_onehot_invariant_witness :
    (Cell.int 1311 = Cell.null → Cell.int 4 = Cell.null ∧
      mapNames FF12_NAMES (Cell.int 4) = Cell.null ∧
      ∀ x ∈ ffIndicators 12 (Cell.int 4), x = Cell.int 0) ∧
    (Cell.int 1311 ≠ Cell.null → ∃ c : Int, Cell.int 4 = Cell.int c ∧
      1 ≤ c ∧ c ≤ 12 ∧
      (ffIndicators 12 (Cell.int 4)).count (Cell.int 1) = 1 ∧
      (ffIndicators 12 (Cell.int 4))[c.toNat - 1]? = some (Cell.int 1) ∧
      ∀ i < 12, i ≠ c.toNat - 1 →
        (ffIndicators 12 (Cell.int 4))[i]? = some (Cell.int 0)) :=
  claim_C2_onehot_invariant.1 (Cell.int 1311) (Cell.int 4) rfl

/-- C3 counterexample: a record whose SIC holds the non-numeric text "abc"
makes every annotate operation raise (ValueError from int()), refuting the
claim that it completes and treats the record as missing. -/
theorem claim_C3_counterexample :
    assign_ff12_industry [("sic", [Cell.str "abc"])] "sic" "i" "FF_IND_CODE"
      = .error () ∧
    assign_ff5_industry [("sic", [Cell.str "abc"])] "sic" "i" "FF_IND_CODE"
      = .error () ∧
    assign_ff38_industry [("sic", [Cell.str "abc"])] "sic" "i" "FF_IND_CODE"
      = .error () ∧
    get_ff12_code (.str "abc") = .error () := by decide

theorem mapM_singleton_error (f : Cell → Except Unit Cell) (c : Cell)
    (h : f c = .error ()) :
    [c].mapM f = (.error () : Except Unit (List Cell)) := by
  rw [List.mapM_cons, h]
  rfl

/-- C3 [corrected]: a record whose SIC is a non-coercible string is not
treated as missing: `int()` raises, and the error propagates out of the
classifier and out of the annotate operation; only null/NaN is missing. -/
theorem claim_C3_noncoercible_raises (s : String) (h : parseInt s = none) :
    get_ff12_code (.str s) = .error () ∧
    get_ff5_code (.str s) = .error () ∧
    get_ff38_code (.str s) = .error () ∧
    assign_ff12_industry [("sic", [Cell.str s])] "sic" "i" "FF_IND_CODE"
      = .error () ∧
    assign_ff5_industry [("sic", [Cell.str s])] "sic" "i" "FF_IND_CODE"
      = .error () ∧
    assign_ff38_industry [("sic", [Cell.str s])] "sic" "i" "FF_IND_CODE"
      = .error () := by
  have hc : Cell.toIntE (.str s) = .error () := by simp [Cell.toIntE, h]
  have h12 : get_ff12_code (.str s) = .error () := by
    show ((Cell.str s).toIntE).map (fun v => Cell.int (ff12_code v)) = Except.error ()
    rw [hc]
    rfl
  have h5 : get_ff5_code (.str s) = .error () := by
    show ((Cell.str s).toIntE).map (fun v => Cell.int (ff5_code v)) = Except.error ()
    rw [hc]
    rfl
  have h38 : get_ff38_code (.str s) = .error () := by
    show ((Cell.str s).toIntE).map (fun v => Cell.int (ff38_code v)) = Except.error ()
    rw [hc]
    rfl
  have hg : getCol [("sic", [Cell.str s])] "sic" = some [Cell.str s] := by
    simp [getCol]
  have hm12 : [Cell.str s].mapM get_ff12_code = (.error () : Except Unit (List Cell)) :=
    mapM_singleton_error _ _ h12
  have hm5 : [Cell.str s].mapM get_ff5_code = (.error () : Except Unit (List Cell)) :=
    mapM_singleton_error _ _ h5
  have hm38 : [Cell.str s].mapM get_ff38_code = (.error () : Except Unit (List Cell)) :=
    mapM_singleton_error _ _ h38
  refine ⟨h12, h5, h38, ?_, ?_, ?_⟩
  · simp only [assign_ff12_industry, hg, hm12]
  · simp only [assign_ff5_industry, hg, hm5]
  · simp only [assign_ff38_industry, hg, hm38]

/-- Witness for C3 [corrected] at the string "xyz". -/
theorem claim_C3_noncoercible_raises_witness :
    parseInt "xyz" = none ∧
    (get_ff12_code (.str "xyz") = .error () ∧
     get_ff5_code (.str "xyz") = .error () ∧
     get_ff38_code (.str "xyz") = .error () ∧
     assign_ff12_industry [("sic", [Cell.str "xyz"])] "sic" "i" "FF_IND_CODE"
       = .error () ∧
     assign_ff5_industry [("sic", [Cell.str "xyz"])] "sic" "i" "FF_IND_CODE"
       = .error () ∧
     assign_ff38_industry [("sic", [Cell.str "xyz"])] "sic" "i" "FF_IND_CODE"
       = .error ()) :=
  ⟨rfl, claim_C3_noncoercible_raises "xyz" rfl⟩

set_option maxHeartbeats 2000000 in
/-- C8 counterexample: on an input frame that already has columns `FF_IND`
and `i1`, the 12-group annotate operation overwrites them with the computed
label and indicator values, so not every original field is preserved. -/
theorem claim_C8_counterexample :
    (assign_ff12_industry [("sic", [Cell.int 1311]), ("FF_IND", [Cell.str "keep"]),
        ("i1", [Cell.int 99])] "sic" "i" "FF_IND_CODE").map
      (fun out => getCol out "FF_IND") = .ok (some [Cell.str "Enrgy"]) ∧
    (assign_ff12_industry [("sic", [Cell.int 1311]), ("FF_IND", [Cell.str "keep"]),
        ("i1", [Cell.int 99])] "sic" "i" "FF_IND_CODE").map
      (fun out => getCol out "i1") = .ok (some [Cell.int 0]) ∧
    getCol [("sic", [Cell.int 1311]), ("FF_IND", [Cell.str "keep"]),
        ("i1", [Cell.int 99])] "FF_IND" = some [Cell.str "keep"] ∧
    getCol [("sic", [Cell.int 1311]), ("FF_IND", [Cell.str "keep"]),
        ("i1", [Cell.int 99])] "i1" = some [Cell.int 99] ∧
    ¬(Cell.str "Enrgy" = Cell.str "keep") ∧ ¬(Cell.int 0 = Cell.int 99) := by
  decide

set_option maxHeartbeats 2000000 in
/-- C8 [corrected]: when the annotate operation succeeds, every original
column whose name is not an output column name (the configured code column,
`FF_IND`, or an indicator column `pfx(i+1)` for i+1 in 1..N) is returned
with its original values; colliding columns are overwritten (see C9). -/
theorem claim_C8_frame_preservation :
    (∀ (df : DataFrame) (sic_col pfx icc col : String) (out : DataFrame),
      assign_ff12_industry df sic_col pfx icc = .ok out →
      col ≠ icc → col ≠ "FF_IND" →
      (∀ i ∈ List.range 12, col ≠ pfx ++ toString (i + 1)) →
      getCol out col = getCol df col) ∧
    (∀ (df : DataFrame) (sic_col pfx icc col : String) (out : DataFrame),
      assign_ff5_industry df sic_col pfx icc = .ok out →
      col ≠ icc → col ≠ "FF_IND" →
      (∀ i ∈ List.range 5, col ≠ pfx ++ toString (i + 1)) →
      getCol out col = getCol df col) ∧
    (∀ (df : DataFrame) (sic_col pfx icc col : String) (out : DataFrame),
      assign_ff38_industry df sic_col pfx icc = .ok out →
      col ≠ icc → col ≠ "FF_IND" →
      (∀ i ∈ List.range 38, col ≠ pfx ++ toString (i + 1)) →
      getCol out col = getCol df col) := by
  refine ⟨?_, ?_, ?_⟩
  · intro df sic_col pfx icc col out hassign h1 h2 h3
    cases hs : getCol df sic_col with
    | none =>
      rw [assign_ff12_industry, hs] at hassign
      exact Except.noConfusion hassign
    | some sics =>
      cases hm : sics.mapM get_ff12_code with
      | error e =>
        simp only [assign_ff12_industry, hs, hm] at hassign
        exact Except.noConfusion hassign
      | ok codes =>
        rw [assign_ff12_eq df sic_col pfx icc sics codes hs hm] at hassign
        rw [← Except.ok.inj hassign]
        exact getCol_assign_rhs_ne 12 FF12_NAMES codes df pfx icc col h1 h2 h3
  · intro df sic_col pfx icc col out hassign h1 h2 h3
    cases hs : getCol df sic_col with
    | none =>
      rw [assign_ff5_industry, hs] at hassign
      exact Except.noConfusion hassign
    | some sics =>
      cases hm : sics.mapM get_ff5_code with
      | error e =>
        simp only [assign_ff5_industry, hs, hm] at hassign
        exact Except.noConfusion hassign
      | ok codes =>
        rw [assign_ff5_eq df sic_col pfx icc sics codes hs hm] at hassign
        rw [← Except.ok.inj hassign]
        exact getCol_assign_rhs_ne 5 FF5_NAMES codes df pfx icc col h1 h2 h3
  · intro df sic_col pfx icc col out hassign h1 h2 h3
    cases hs : getCol df sic_col with
    | none =>
      rw [assign_ff38_industry, hs] at hassign
      exact Except.noConfusion hassign
    | some sics =>
      cases hm : sics.mapM get_ff38_code with
      | error e =>
        simp only [assign_ff38_industry, hs, hm] at hassign
        exact Except.noConfusion hassign
      | ok codes =>
        rw [assign_ff38_eq df sic_col pfx icc sics codes hs hm] at hassign
        rw [← Except.ok.inj hassign]
        exact getCol_assign_rhs_ne 38 FF38_NAMES codes df pfx icc col h1 h2 h3

set_option maxHeartbeats 2000000 in
/-- Witness for C8 [corrected]: the column `foo` survives annotation of a
concrete frame unchanged. -/
theorem claim_C8_frame_preservation_witness :
    getCol [("sic", [Cell.int 100]), ("foo", [Cell.str "x"]), ("FF_IND_CODE", [Cell.int 1]), ("FF_IND", [Cell.str "NoDur"]), ("i1", [Cell.int 1]), ("i2", [Cell.int 0]), ("i3", [Cell.int 0]), ("i4", [Cell.int 0]), ("i5", [Cell.int 0]), ("i6", [Cell.int 0]), ("i7", [Cell.int 0]), ("i8", [Cell.int 0]), ("i9", [Cell.int 0]), ("i10", [Cell.int 0]), ("i11", [Cell.int 0]), ("i12", [Cell.int 0])] "foo" = some [Cell.str "x"] :=
  claim_C8_frame_preservation.1 [("sic", [Cell.int 100]), ("foo", [Cell.str "x"])]
    "sic" "i" "FF_IND_CODE" "foo" [("sic", [Cell.int 100]), ("foo", [Cell.str "x"]), ("FF_IND_CODE", [Cell.int 1]), ("FF_IND", [Cell.str "NoDur"]), ("i1", [Cell.int 1]), ("i2", [Cell.int 0]), ("i3", [Cell.int 0]), ("i4", [Cell.int 0]), ("i5", [Cell.int 0]), ("i6", [Cell.int 0]), ("i7", [Cell.int 0]), ("i8", [Cell.int 0]), ("i9", [Cell.int 0]), ("i10", [Cell.int 0]), ("i11", [Cell.int 0]), ("i12", [Cell.int 0])]
    (by decide) (by decide) (by decide) (by decide)

/-- C9: the output columns of the annotate operations always hold the newly
computed code, label, and indicator values, for every input frame — so a
pre-existing column with one of those names is silently overwritten rather
than preserved, and no error is reported. -/
theorem claim_C9_output_columns_computed :
    (∀ (df : DataFrame) (sics codes : List Cell) (out : DataFrame),
      getCol df "sic" = some sics →
      sics.mapM get_ff12_code = .ok codes →
      assign_ff12_industry df "sic" "i" "FF_IND_CODE" = .ok out →
      getCol out "FF_IND_CODE" = some codes ∧
      getCol out "FF_IND" = some (codes.map (mapNames FF12_NAMES)) ∧
      ∀ k : Nat, k < 12 → getCol out ("i" ++ toString (k + 1))
        = some (codes.map (indicatorCell ((k : Int) + 1)))) ∧
    (∀ (df : DataFrame) (sics codes : List Cell) (out : DataFrame),
      getCol df "sic" = some sics →
      sics.mapM get_ff5_code = .ok codes →
      assign_ff5_industry df "sic" "i" "FF_IND_CODE" = .ok out →
      getCol out "FF_IND_CODE" = some codes ∧
      getCol out "FF_IND" = some (codes.map (mapNames FF5_NAMES)) ∧
      ∀ k : Nat, k < 5 → getCol out ("i" ++ toString (k + 1))
        = some (codes.map (indicatorCell ((k : Int) + 1)))) ∧
    (∀ (df : DataFrame) (sics codes : List Cell) (out : DataFrame),
      getCol df "sic" = some sics →
      sics.mapM get_ff38_code = .ok codes →
      assign_ff38_industry df "sic" "i" "FF_IND_CODE" = .ok out →
      getCol out "FF_IND_CODE" = some codes ∧
      getCol out "FF_IND" = some (codes.map (mapNames FF38_NAMES)) ∧
      ∀ k : Nat, k < 38 → getCol out ("i" ++ toString (k + 1))
        = some (codes.map (indicatorCell ((k : Int) + 1)))) := by
  refine ⟨?_, ?_, ?_⟩
  · intro df sics codes out h1 h2 h3
    rw [assign_ff12_eq df "sic" "i" "FF_IND_CODE" sics codes h1 h2] at h3
    rw [← Except.ok.inj h3]
    exact getCol_assign_rhs_out 12 FF12_NAMES codes df (by decide) (by decide) (by decide)
  · intro df sics codes out h1 h2 h3
    rw [assign_ff5_eq df "sic" "i" "FF_IND_CODE" sics codes h1 h2] at h3
    rw [← Except.ok.inj h3]
    exact getCol_assign_rhs_out 5 FF5_NAMES codes df (by decide) (by decide) (by decide)
  · intro df sics codes out h1 h2 h3
    rw [assign_ff38_eq df "sic" "i" "FF_IND_CODE" sics codes h1 h2] at h3
    rw [← Except.ok.inj h3]
    exact getCol_assign_rhs_out 38 FF38_NAMES codes df (by decide) (by decide) (by decide)

set_option maxHeartbeats 2000000 in
/-- Witness for C9: a frame whose `FF_IND`, `i1` and `FF_IND_CODE` columns
collide with the outputs gets them overwritten with the computed values. -/
theorem claim_C9_output_columns_computed_witness :
    getCol [("sic", [Cell.int 1311]), ("FF_IND", [Cell.str "Enrgy"]), ("i1", [Cell.int 0]), ("FF_IND_CODE", [Cell.int 4]), ("i2", [Cell.int 0]), ("i3", [Cell.int 0]), ("i4", [Cell.int 1]), ("i5", [Cell.int 0]), ("i6", [Cell.int 0]), ("i7", [Cell.int 0]), ("i8", [Cell.int 0]), ("i9", [Cell.int 0]), ("i10", [Cell.int 0]), ("i11", [Cell.int 0]), ("i12", [Cell.int 0])] "FF_IND_CODE" = some [Cell.int 4] ∧
    getCol [("sic", [Cell.int 1311]), ("FF_IND", [Cell.str "Enrgy"]), ("i1", [Cell.int 0]), ("FF_IND_CODE", [Cell.int 4]), ("i2", [Cell.int 0]), ("i3", [Cell.int 0]), ("i4", [Cell.int 1]), ("i5", [Cell.int 0]), ("i6", [Cell.int 0]), ("i7", [Cell.int 0]), ("i8", [Cell.int 0]), ("i9", [Cell.int 0]), ("i10", [Cell.int 0]), ("i11", [Cell.int 0]), ("i12", [Cell.int 0])] "FF_IND" = some [Cell.str "Enrgy"] ∧
    getCol [("sic", [Cell.int 1311]), ("FF_IND", [Cell.str "Enrgy"]), ("i1", [Cell.int 0]), ("FF_IND_CODE", [Cell.int 4]), ("i2", [Cell.int 0]), ("i3", [Cell.int 0]), ("i4", [Cell.int 1]), ("i5", [Cell.int 0]), ("i6", [Cell.int 0]), ("i7", [Cell.int 0]), ("i8", [Cell.int 0]), ("i9", [Cell.int 0]), ("i10", [Cell.int 0]), ("i11", [Cell.int 0]), ("i12", [Cell.int 0])] "i1" = some [Cell.int 0] := by
  have h := claim_C9_output_columns_computed.1
    [("sic", [Cell.int 1311]), ("FF_IND", [Cell.str "keep"]), ("i1", [Cell.int 99]), ("FF_IND_CODE", [Cell.str "old"])]
    [Cell.int 1311] [Cell.int 4]
    [("sic", [Cell.int 1311]), ("FF_IND", [Cell.str "Enrgy"]), ("i1", [Cell.int 0]), ("FF_IND_CODE", [Cell.int 4]), ("i2", [Cell.int 0]), ("i3", [Cell.int 0]), ("i4", [Cell.int 1]), ("i5", [Cell.int 0]), ("i6", [Cell.int 0]), ("i7", [Cell.int 0]), ("i8", [Cell.int 0]), ("i9", [Cell.int 0]), ("i10", [Cell.int 0]), ("i11", [Cell.int 0]), ("i12", [Cell.int 0])]
    (by decide) (by decide) (by decide)
  exact ⟨h.1, h.2.1, h.2.2 0 (by norm_num)⟩
